import Mathlib

/-!
Shallow embedding of the pyhomekit protocol layer
(`pyhomekit/pairing.py`, `pyhomekit/ble.py`, `pyhomekit/constants.py`,
`pyhomekit/utils.py`), together with theorems settling the specification
claims about it.

Bytes are modelled as `List Nat` (each element a byte value), Python ints
as `Nat` (or `Int` where subtraction can go negative), dictionaries as
association lists, and exceptions as `Except PErr`.  External libraries
(hashlib SHA-512, libnacl AEAD, the ed25519 package) are modelled as
abstract function parameters, since they are collaborators outside this
repository.
-/

set_option maxRecDepth 20000

/-- Error model: Python exception kind plus raise site, mirroring each
`raise` statement (and implicit exception) in the source. -/
inductive PErr where
  /-- Python `KeyError` from a failed dict lookup. -/
  | keyError : PErr
  /-- Python `IndexError` from an out-of-range index. -/
  | indexError : PErr
  /-- Python `struct.error` from `unpack` on a wrong-sized buffer. -/
  | structError : PErr
  /-- Python `ValueError` from a helper (for instance `int('', 16)`). -/
  | valueError : PErr
  /-- Python `ValueError("Invalid control field ...")`, ble.py line 75. -/
  | invalidControlField (got : Nat) : PErr
  /-- Python `ValueError("Invalid transaction ID ...")`, ble.py line 79. -/
  | tidMismatch (got expected : Nat) : PErr
  /-- Python `ValueError("Invalid body length ...")`, ble.py line 86. -/
  | bodyLengthMismatch (expected : Nat) : PErr
  /-- A `HapBleError(status_code=...)` successfully constructed from the
  status tables, ble.py line 83 with constants.py lines 381-408. -/
  | hapStatus (code : Nat) (name message : String) : PErr
  /-- A `HapBleError(name="Invalid response length")`, ble.py line 92. -/
  | invalidResponseLength : PErr
  /-- Python `ValueError("Received wrong message for M<m> ...")`, pairing.py. -/
  | wrongMessage (m : Nat) : PErr
  /-- Python `ValueError("Invalid public key received")`, pairing.py line 199. -/
  | invalidPublicKey : PErr
  /-- Python `ValueError("Authentication failed - invalid prood received.")`,
  pairing.py line 253. -/
  | authFailed : PErr
  /-- Python `ValueError("Unexpected presentation format ...")`, utils.py line 115. -/
  | presentationFormatError : PErr
  /-- Python `UnicodeDecodeError` from `bytes.decode('utf-8')`. -/
  | unicodeError : PErr
  /-- Spec error kind `MalformedTlv` (spec section 4.1) used by the
  spec-modelled `parse_ktlvs`. -/
  | malformedTlv : PErr
  /-- AEAD decryption failure from `crypto_aead_chacha20poly1305_ietf_decrypt`. -/
  | aeadError : PErr
deriving DecidableEq

/-- Decidable equality for `Except`, so that concrete runs of the
embedded functions can be checked by `decide`. -/
instance {ε α : Type} [DecidableEq ε] [DecidableEq α] : DecidableEq (Except ε α)
  | .error e, .error f =>
    if h : e = f then isTrue (by rw [h]) else isFalse (fun c => h (Except.error.inj c))
  | .error _, .ok _ => isFalse (fun c => nomatch c)
  | .ok _, .error _ => isFalse (fun c => nomatch c)
  | .ok x, .ok y =>
    if h : x = y then isTrue (by rw [h]) else isFalse (fun c => h (Except.ok.inj c))

namespace pairing

/-- Little-endian base-256 digits of `v`, exactly `len` bytes, matching
Python `v.to_bytes(len, 'little')` (high bytes zero when `v` is small). -/
def leBytes : Nat → Nat → List Nat
  | 0, _ => []
  | len + 1, v => v % 256 :: leBytes len (v / 256)

/-- Bit length of a single byte value (0 for 0, 8 for 128..255). -/
def byteBits (b : Nat) : Nat :=
  if b = 0 then 0 else if b < 2 then 1 else if b < 4 then 2 else if b < 8 then 3
  else if b < 16 then 4 else if b < 32 then 5 else if b < 64 then 6
  else if b < 128 then 7 else 8

/-- Fuel-driven byte counter: strips one base-256 digit per step.  With
`fuel = n` this counts the base-256 digits of `n` (for all `n`, since `n`
is at least its own digit count). -/
def byteLenAux : Nat → Nat → Nat
  | 0, _ => 0
  | fuel + 1, n => if n = 0 then 0 else byteLenAux fuel (n / 256) + 1

/-- Python `n.bit_length()`: number of bits needed to represent `n`,
computed as eight bits per full base-256 digit plus the bits of the
leading digit.  (`bit_length` is a Python int builtin; this is a model of
that external primitive.) -/
def bit_length (n : Nat) : Nat :=
  let len := byteLenAux n n
  if len = 0 then 0 else 8 * (len - 1) + byteBits (n / 256 ^ (len - 1))

/-- pairing.py `to_bytes(value, little_endian=True)`:
`value.to_bytes(-(-value.bit_length() // 8), order)` - the minimal number
of bytes (ceiling of bit_length / 8) in the requested byte order. -/
def to_bytes (little_endian : Bool) (value : Nat) : List Nat :=
  let numBytes := (bit_length value + 7) / 8
  let le := leBytes numBytes value
  if little_endian then le else le.reverse

/-- pairing.py `from_bytes(value, little_endian=True)`: takes the hex
digit string of the bytes (`value.hex()`), reverses that STRING (not the
byte order) when little-endian, and parses it base 16.  `int('', 16)`
raises `ValueError`, hence `none` on empty input.  Each byte contributes
its two hex digits `[b / 16, b % 16]`. -/
def from_bytes (little_endian : Bool) (value : List Nat) : Option Nat :=
  match value with
  | [] => none
  | bs =>
    let digits := (bs.map (fun b => [b / 16, b % 16])).flatten
    let digits := if little_endian then digits.reverse else digits
    some (digits.foldl (fun acc d => acc * 16 + d) 0)

/-- pairing.py `N`: the fixed 3072-bit RFC-5054 safe prime. -/
def N : Nat :=
  0xFFFFFFFFFFFFFFFFC90FDAA22168C234C4C6628B80DC1CD129024E088A67CC74020BBEA63B139B22514A08798E3404DDEF9519B3CD3A431B302B0A6DF25F14374FE1356D6D51C245E485B576625E7EC6F44C42E9A637ED6B0BFF5CB6F406B7EDEE386BFB5A899FA5AE9F24117C4B1FE649286651ECE45B3DC2007CB8A163BF0598DA48361C55D39A69163FA8FD24CF5F83655D23DCA3AD961C62F356208552BB9ED529077096966D670C354E4ABC9804F1746C08CA18217C32905E462E36CE3BE39E772C180E86039B2783A2EC07A28FB5C55DF06F4C52C9DE2BCBF6955817183995497CEA956AE515D2261898FA051015728E5A8AAAC42DAD33170D04507A33A85521ABDF1CBA64ECFB850458DBEF0A8AEA71575D060C7DB3970F85A6E1E4C7ABF5AE8CDB0933D71E8C94E04A25619DCEE3D2261AD2EE6BF12FFA06D98A0864D87602733EC86A64521F2B18177B200CBBE117577A615D6C770988C0BAD946E208E24FA074E5AB3143DB5BFCE0FD108E4B82D120A93AD2CAFFFFFFFFFFFFFFFF

/-- pairing.py `PAD_L = N.bit_length() // 8`. -/
def PAD_L : Nat := bit_length N / 8

/-- pairing.py `g = 5`. -/
def g : Nat := 5

/-- The zero padding applied inside `H` when `pad=True`:
`b'\x00' * (PAD_L - len(arg)) + arg` (no truncation; Nat subtraction
matches Python negative-repeat giving the empty string). -/
def hPad (pad : Bool) (bs : List Nat) : List Nat :=
  if pad then List.replicate (PAD_L - bs.length) 0 ++ bs else bs

/-- pairing.py `H(*args, sep=b'', pad=False)` restricted to int arguments
(the only kind the embedded call sites pass): each argument is converted
with `to_bytes(arg, False)` (big-endian), optionally zero-padded to
`PAD_L` bytes, all joined with the empty separator, and hashed.  The
abstract parameter `sha` stands for the external
`int(sha512(data).hexdigest(), 16)` composition from hashlib. -/
def H (sha : List Nat → Nat) (pad : Bool) (args : List Nat) : Nat :=
  sha ((args.map (fun a => hPad pad (to_bytes false a))).flatten)

/-- pairing.py line 93: `k = H(N, g, pad=True)`. -/
def k (sha : List Nat → Nat) : Nat := H sha true [N, g]

/-- The byte string the claim says is hashed for `k`: `N` and `g` each
zero-padded on the left to 384 bytes (the byte length of the 3072-bit
modulus), then concatenated. -/
def kSpecBytes : List Nat :=
  (List.replicate (384 - (to_bytes false N).length) 0 ++ to_bytes false N) ++
  (List.replicate (384 - (to_bytes false g).length) 0 ++ to_bytes false g)

/-- The value `k` as the claim words it: the hash of `kSpecBytes`. -/
def kSpec (sha : List Nat → Nat) : Nat := sha kSpecBytes

/-- pairing.py lines 223-224 (inside `m3_generate_srp_verify_request`):
`S = pow(B - (k * pow(g, x, N)), a + (u * x), N)`.  The base may be a
negative Python int, hence `Int`; Python three-argument `pow` returns the
nonnegative residue, matching `Int.emod`. -/
def computeS (k B a u x : Nat) : Int :=
  ((B : Int) - ((k * (g ^ x % N) : Nat) : Int)) ^ (a + u * x) % (N : Int)

/-- The shared-secret formula exactly as the spec words it:
`S = (B - k*g^x mod N)^(a + u*x) mod N`, with the full integer power
`g^x` and a single reduction mod `N` at the end. -/
def specSharedSecret (k B a u x : Nat) : Int :=
  ((B : Int) - (k : Int) * (g : Int) ^ x) ^ (a + u * x) % (N : Int)

end pairing


namespace pairing

/-- Parsed kTLV dictionaries: resolved TLV name to raw value bytes, as
produced by the (missing) TLV reassembly described in spec section 4.1
(`reassemble(chunks) -> mapping name -> bytes`). -/
def Dict : Type := List (String × List Nat)

/-- Python dict lookup; `none` models a raised `KeyError`. -/
def dictGet (d : Dict) (key : String) : Option (List Nat) :=
  match d with
  | [] => none
  | (key2, v) :: rest => if key2 = key then some v else dictGet rest key

/-- The mutable state of `SRPPairSetup` (pairing.py lines 133-163)
restricted to the fields the embedded methods touch.  `S` is an `Int`
because it is produced by `pow` over a possibly negative base. -/
structure SRPPairSetup where
  B : Nat := 0
  s : Nat := 0
  x : Nat := 0
  a : Nat := 0
  A : Nat := 0
  u : Nat := 0
  S : Int := 0
  K : Nat := 0
  M1 : Nat := 0
  M2 : Nat := 0
  accessory_pairing_id : List Nat := []
  accessory_ltpk : List Nat := []
  accessory_signature : List Nat := []
deriving DecidableEq

/-- Python semantics of `parsed_ktlvs['kTLVType_State'] != 4` when the
dict values are `bytes`: a `bytes` object never compares equal to an
`int`, so the equality is always false.  (Used by `m4` and `m6`, which
compare the raw dict value against the int directly, unlike `m2` which
first converts with `from_bytes`.) -/
def pyBytesEqInt (_bs : List Nat) (_n : Nat) : Bool := false

/-- pairing.py lines 189-199, `SRPPairSetup.m2_receive_srp_start_response`:
check the decoded state value is 2, store `B` and `s` decoded with
`from_bytes`, then reject `B >= N or B <= 0`. -/
def m2_receive_srp_start_response (st : SRPPairSetup) (parsed_ktlvs : Dict) :
    Except PErr SRPPairSetup :=
  match dictGet parsed_ktlvs "kTLVType_State" with
  | none => .error .keyError
  | some sb =>
    match from_bytes true sb with
    | none => .error .valueError
    | some sv =>
      if sv ≠ 2 then .error (.wrongMessage 2)
      else
        match dictGet parsed_ktlvs "kTLVType_PublicKey" with
        | none => .error .keyError
        | some pb =>
          match from_bytes true pb with
          | none => .error .valueError
          | some Bv =>
            match dictGet parsed_ktlvs "kTLVType_Salt" with
            | none => .error .keyError
            | some saltb =>
              match from_bytes true saltb with
              | none => .error .valueError
              | some saltv =>
                let st2 := { st with B := Bv, s := saltv }
                if st2.B ≥ N ∨ st2.B ≤ 0 then .error .invalidPublicKey
                else .ok st2

/-- pairing.py lines 243-253, `SRPPairSetup.m4_receive_srp_verify_response`:
the state check compares the raw bytes value against the int 4
(`pyBytesEqInt`, always false), then the received proof is decoded with
`from_bytes` and compared against `H(A, M1, K)`. -/
def m4_receive_srp_verify_response (sha : List Nat → Nat) (st : SRPPairSetup)
    (parsed_ktlvs : Dict) : Except PErr SRPPairSetup :=
  match dictGet parsed_ktlvs "kTLVType_State" with
  | none => .error .keyError
  | some sb =>
    if pyBytesEqInt sb 4 then
      match dictGet parsed_ktlvs "kTLVType_Proof" with
      | none => .error .keyError
      | some pb =>
        match from_bytes true pb with
        | none => .error .valueError
        | some m2v =>
          let st2 := { st with M2 := m2v }
          let M2_calc := H sha false [st2.A, st2.M1, st2.K]
          if M2_calc ≠ st2.M2 then .error .authFailed else .ok st2
    else .error (.wrongMessage 4)

/-- Strict TLV chunk decode with explicit fuel (one step per chunk):
`[type][len][len bytes]`, failing when fewer than `len` bytes remain.
Used by the spec-modelled `parse_ktlvs`. -/
def tlvStrictDecodeAux : Nat → List Nat → Option (List (Nat × Nat × List Nat))
  | _, [] => some []
  | _, [_] => none
  | fuel + 1, t :: l :: rest =>
    if l ≤ rest.length then
      (tlvStrictDecodeAux fuel (rest.drop l)).map (fun cs => (t, l, rest.take l) :: cs)
    else none
  | 0, _ :: _ :: _ => none

/-- Strict TLV chunk decode of a complete byte stream. -/
def tlvStrictDecode (data : List Nat) : Option (List (Nat × Nat × List Nat)) :=
  tlvStrictDecodeAux data.length data

/-- constants.py `pairing_tlv_value_to_name`. -/
def pairing_tlv_value_to_name : Nat → Option String
  | 0 => some "kTLVType_Method"
  | 1 => some "kTLVType_Identifier"
  | 2 => some "kTLVType_Salt"
  | 3 => some "kTLVType_PublicKey"
  | 4 => some "kTLVType_Proof"
  | 5 => some "kTLVType_EncryptedData"
  | 6 => some "kTLVType_State"
  | 7 => some "kTLVType_Error"
  | 8 => some "kTLVType_RetryDelay"
  | 9 => some "kTLVType_Certificate"
  | 10 => some "kTLVType_Signature"
  | 11 => some "kTLVType_Permissions"
  | 12 => some "kTLVType_FragmentData"
  | 13 => some "kTLVType_FragmentLast"
  | 255 => some "kTLVType_Separator"
  | _ => none

/-- Append `v` to the entry for `n`, or add a new entry: the reassembly
rule "when the same name appears more than once, concatenate bytes in
order of appearance". -/
def dictAppend (d : Dict) (n : String) (v : List Nat) : Dict :=
  match d with
  | [] => [(n, v)]
  | (n2, v2) :: rest =>
    if n2 = n then (n2, v2 ++ v) :: rest else (n2, v2) :: dictAppend rest n v

/-- Modelled from the spec: `utils.parse_ktlvs` is called by
`m6_receive_exchange_response` (pairing.py line 349) but is missing from
the source tree; spec section 4.1 describes it as
`reassemble(chunks) -> mapping name -> bytes`, grouping decoded chunks by
the name resolved through the pairing TLV registry, concatenating
repeated names in order of appearance, and failing on malformed TLV
streams. -/
def parse_ktlvs (data : List Nat) : Except PErr Dict :=
  match tlvStrictDecode data with
  | none => .error .malformedTlv
  | some chunks =>
    chunks.foldlM
      (fun d c =>
        match pairing_tlv_value_to_name c.1 with
        | none => .error .keyError
        | some n => .ok (dictAppend d n c.2.2))
      ([] : Dict)

/-- The 8-byte ASCII nonce literal `"PS-Msg06"`. -/
def psMsg06 : List Nat := [80, 83, 45, 77, 115, 103, 48, 54]

/-- pairing.py lines 343-366, the body of
`SRPPairSetup.m6_receive_exchange_response` after its state check:
decrypt the exchange payload, parse the decrypted sub-TLVs, record the
accessory pairing id, long-term public key and signature, and persist the
pairing id and the long-term public key (the returned list of
`(file name, contents)` write actions).  `decrypt` abstracts the external
`crypto_aead_chacha20poly1305_ietf_decrypt(key=S, nonce=b"PS-Msg06",
aad=None, ...)`; note that no Ed25519 verification of
`accessory_signature` is performed anywhere in this method. -/
def m6_body (decrypt : Int → List Nat → List Nat → Option (List Nat))
    (st : SRPPairSetup) (encrypted_data : List Nat) :
    Except PErr (SRPPairSetup × List (String × List Nat)) :=
  match decrypt st.S psMsg06 encrypted_data with
  | none => .error .aeadError
  | some decrypted_ktlvs =>
    match parse_ktlvs decrypted_ktlvs with
    | .error e => .error e
    | .ok parsed =>
      match dictGet parsed "kTLVType_Identifier" with
      | none => .error .keyError
      | some apid =>
        match dictGet parsed "kTLVType_PublicKey" with
        | none => .error .keyError
        | some ltpk =>
          match dictGet parsed "kTLVType_Signature" with
          | none => .error .keyError
          | some sig =>
            let st2 := { st with accessory_pairing_id := apid,
                                 accessory_ltpk := ltpk,
                                 accessory_signature := sig }
            .ok (st2, [("accessory_pairing_id", apid), ("accessory_ltpk", ltpk)])

/-- pairing.py lines 336-366, `SRPPairSetup.m6_receive_exchange_response`:
the state check compares the raw bytes value against the int 6
(`pyBytesEqInt`, always false), then hands over to `m6_body`. -/
def m6_receive_exchange_response
    (decrypt : Int → List Nat → List Nat → Option (List Nat))
    (st : SRPPairSetup) (parsed_ktlvs : Dict) :
    Except PErr (SRPPairSetup × List (String × List Nat)) :=
  match dictGet parsed_ktlvs "kTLVType_State" with
  | none => .error .keyError
  | some sb =>
    if pyBytesEqInt sb 6 then
      match dictGet parsed_ktlvs "kTLVType_EncryptedData" with
      | none => .error .keyError
      | some ed => m6_body decrypt st ed
    else .error (.wrongMessage 6)

end pairing

namespace hap

/-- The heterogeneous results the parameter-registry converters produce:
raw bytes (`identity`), strings (`to_uuid`, `to_utf8`), integers
(`to_uint16`) and the presentation-format pair (`parse_format`). -/
inductive HapValue where
  | bytes (bs : List Nat) : HapValue
  | str (s : String) : HapValue
  | int (n : Int) : HapValue
  | fmt (format unit : Nat) : HapValue
deriving DecidableEq

/-- Lowercase hex digit character for a value below 16 (Python `bytes.hex`). -/
def hexDigitChar (d : Nat) : Char :=
  if d < 10 then Char.ofNat (48 + d) else Char.ofNat (87 + d)

/-- Python `bytes.hex()`: two lowercase hex digits per byte. -/
def bytesHex (bs : List Nat) : List Char :=
  (bs.map (fun b => [hexDigitChar (b / 16), hexDigitChar (b % 16)])).flatten

/-- utils.py / constants.py `to_uuid(b)`: reverse the bytes, take the hex
string, and join the slices `[:8], [8:12], [12:16], [16:20], [20:]` with
dashes. -/
def to_uuid (b : List Nat) : String :=
  let s := bytesHex b.reverse
  String.mk (s.take 8 ++ '-' :: ((s.drop 8).take 4) ++ '-' :: ((s.drop 12).take 4)
    ++ '-' :: ((s.drop 16).take 4) ++ '-' :: s.drop 20)

/-- constants.py `to_uint16(b)`: `unpack('<H', b)`, requiring exactly two
bytes (`struct.error` otherwise). -/
def to_uint16 (b : List Nat) : Except PErr HapValue :=
  match b with
  | [b0, b1] => .ok (.int (b0 + 256 * b1))
  | _ => .error .structError

/-- One UTF-8 decoding step: returns the code point and the remaining
bytes, following the strict (errors="strict") decoder: rejects stray
continuation bytes, overlong forms, surrogates and values above
0x10FFFF. -/
def utf8Step : List Nat → Option (Nat × List Nat)
  | [] => none
  | b :: rest =>
    if b < 0x80 then some (b, rest)
    else if b < 0xC2 then none
    else if b < 0xE0 then
      match rest with
      | b1 :: rest1 =>
        if 0x80 ≤ b1 ∧ b1 < 0xC0 then some ((b - 0xC0) * 64 + (b1 - 0x80), rest1)
        else none
      | _ => none
    else if b < 0xF0 then
      match rest with
      | b1 :: b2 :: rest2 =>
        let lo1 := if b = 0xE0 then 0xA0 else 0x80
        let hi1 := if b = 0xED then 0x9F else 0xBF
        if lo1 ≤ b1 ∧ b1 ≤ hi1 ∧ 0x80 ≤ b2 ∧ b2 < 0xC0 then
          some ((b - 0xE0) * 4096 + (b1 - 0x80) * 64 + (b2 - 0x80), rest2)
        else none
      | _ => none
    else if b < 0xF5 then
      match rest with
      | b1 :: b2 :: b3 :: rest3 =>
        let lo1 := if b = 0xF0 then 0x90 else 0x80
        let hi1 := if b = 0xF4 then 0x8F else 0xBF
        if lo1 ≤ b1 ∧ b1 ≤ hi1 ∧ 0x80 ≤ b2 ∧ b2 < 0xC0 ∧ 0x80 ≤ b3 ∧ b3 < 0xC0 then
          some ((b - 0xF0) * 262144 + (b1 - 0x80) * 4096 + (b2 - 0x80) * 64 + (b3 - 0x80),
            rest3)
        else none
      | _ => none
    else none

/-- Fuel-driven strict UTF-8 decoding to a code-point list. -/
def utf8DecodeAux : Nat → List Nat → Option (List Nat)
  | _, [] => some []
  | 0, _ :: _ => none
  | fuel + 1, bs@(_ :: _) =>
    match utf8Step bs with
    | none => none
    | some (cp, rest) => (utf8DecodeAux fuel rest).map (fun cps => cp :: cps)

/-- constants.py `to_utf8(b)`: `b.decode('utf-8')`, strict errors. -/
def to_utf8 (b : List Nat) : Except PErr HapValue :=
  match utf8DecodeAux b.length b with
  | none => .error .unicodeError
  | some cps => .ok (.str (String.mk (cps.map Char.ofNat)))

/-- Python `unpack('<b', bytes([v]))`: signed 8-bit reinterpretation. -/
def signedByte (v : Nat) : Int :=
  if v < 128 then (v : Int) else (v : Int) - 256

/-- constants.py / utils.py `parse_format(b)`: unpack format (u8),
exponent (i8), unit (u16 LE), namespace (i8) and description (u16 LE);
any wrong slice size is a `struct.error` (the total must be exactly 7
bytes since `b[5:]` is unpacked as `<H`), and
exponent != 0 or namespace != 1 or description != 0 raises `ValueError`. -/
def parse_format (b : List Nat) : Except PErr HapValue :=
  match b with
  | [f0, e0, u0, u1, n0, d0, d1] =>
    if signedByte e0 ≠ 0 ∨ signedByte n0 ≠ 1 ∨ d0 + 256 * d1 ≠ 0 then
      .error .presentationFormatError
    else .ok (.fmt f0 (u0 + 256 * u1))
  | _ => .error .structError

/-- constants.py `HAP_param_type_code_to_name`. -/
def HAP_param_type_code_to_name : Nat → Option String
  | 1 => some "Value"
  | 2 => some "Additional_Authorization_Data"
  | 3 => some "Origin_local_vs_remote"
  | 4 => some "Characteristic_Type"
  | 5 => some "Characteristic_Instance_ID"
  | 6 => some "Service_Type"
  | 7 => some "Service_Instance_ID"
  | 8 => some "TTL"
  | 9 => some "Return_Response"
  | 10 => some "HAP_Characteristic_Properties_Descriptor"
  | 11 => some "GATT_User_Description_Descriptor"
  | 12 => some "GATT_Presentation_Format_Descriptor"
  | 13 => some "GATT_Valid_Range"
  | 14 => some "HAP_Step_Value_Descriptor"
  | 15 => some "HAP_Service_Properties"
  | 16 => some "HAP_Linked_Services"
  | 17 => some "HAP_Valid_Values_Descriptor"
  | 18 => some "HAP_Valid_Values_Range_Descriptor"
  | _ => none

/-- constants.py `HAP_param_name_to_converter`: maps each registered
parameter name to its byte-decoding function (`identity`, `to_uuid`,
`to_uint16`, `to_utf8` or `parse_format`). -/
def HAP_param_name_to_converter (name : String) : Option (List Nat → Except PErr HapValue) :=
  match name with
  | "Value" => some (fun v => .ok (.bytes v))
  | "Additional_Authorization_Data" => some (fun v => .ok (.bytes v))
  | "Origin_local_vs_remote" => some (fun v => .ok (.bytes v))
  | "Characteristic_Type" => some (fun v => .ok (.str (to_uuid v)))
  | "Characteristic_Instance_ID" => some (fun v => .ok (.str (to_uuid v)))
  | "Service_Type" => some (fun v => .ok (.str (to_uuid v)))
  | "Service_Instance_ID" => some to_uint16
  | "TTL" => some (fun v => .ok (.bytes v))
  | "Return_Response" => some (fun v => .ok (.bytes v))
  | "HAP_Characteristic_Properties_Descriptor" => some to_uint16
  | "GATT_User_Description_Descriptor" => some to_utf8
  | "GATT_Presentation_Format_Descriptor" => some parse_format
  | "GATT_Valid_Range" => some (fun v => .ok (.bytes v))
  | "HAP_Step_Value_Descriptor" => some (fun v => .ok (.bytes v))
  | "HAP_Service_Properties" => some to_uint16
  | "HAP_Linked_Services" => some (fun v => .ok (.bytes v))
  | "HAP_Valid_Values_Descriptor" => some (fun v => .ok (.bytes v))
  | "HAP_Valid_Values_Range_Descriptor" => some (fun v => .ok (.bytes v))
  | _ => none

/-- constants.py `status_code_to_name`. -/
def status_code_to_name : Nat → Option String
  | 0 => some "Success"
  | 1 => some "Unsupported_PDU"
  | 2 => some "Max_Procedures"
  | 3 => some "Insufficient Authorization"
  | 4 => some "Invalid Instance ID"
  | 5 => some "Insufficient Authentication"
  | 6 => some "Invalid Request"
  | _ => none

/-- constants.py `status_code_to_message`. -/
def status_code_to_message : Nat → Option String
  | 0 => some "The request was successful."
  | 1 => some "The request failed as the HAP PDU was not recognized or supported."
  | 2 => some ("The request failed as the accessory has reached the the limit on the "
      ++ "simultaneous procedures it can handle.")
  | 3 => some "Characteristic requires additional authorization data."
  | 4 => some ("The HAP Request\x27s characteristic Instance id did not match the addressed "
      ++ "characteristic\x27s instance id.")
  | 5 => some "Characteristic access required a secure session to be established."
  | 6 => some "Accessory was not able to perform the requested operation."
  | _ => none

/-- ble.py lines 239-268, `HapBleError.__init__` with a status code: look
up name then message in the constants tables; a code outside the tables
raises `KeyError` instead of building the error. -/
def hapBleErrorFromStatus (status : Nat) : PErr :=
  match status_code_to_name status with
  | none => .keyError
  | some n =>
    match status_code_to_message status with
    | none => .keyError
    | some m => .hapStatus status n m

/-- utils.py lines 44-55, `iterate_tvl`, with explicit fuel: reads
`response[start]` as the type and `response[start + 1]` as the length,
yields the (possibly truncated, since Python slicing truncates) slice
`response[start+2 : start+2+length]`, and advances by `2 + length`.  A
chunk with the type byte as its last byte makes `response[start + 1]`
raise `IndexError`, modelled as `none`. -/
def iterate_tvl_aux : Nat → List Nat → Option (List (Nat × Nat × List Nat))
  | _, [] => some []
  | _, [_] => none
  | fuel + 1, t :: l :: rest =>
    (iterate_tvl_aux fuel (rest.drop l)).map (fun cs => (t, l, rest.take l) :: cs)
  | 0, _ :: _ :: _ => none

/-- utils.py `iterate_tvl(response)` run to completion. -/
def iterate_tvl (response : List Nat) : Option (List (Nat × Nat × List Nat)) :=
  iterate_tvl_aux response.length response

/-- The per-chunk length check from ble.py lines 91-92 applied to every
chunk `iterate_tvl` yields, failing at the first chunk whose value is
shorter than its declared length (`HapBleError("Invalid response
length")`). -/
def checkChunkLengths : List (Nat × Nat × List Nat) →
    Except PErr (List (Nat × Nat × List Nat))
  | [] => .ok []
  | (t, l, v) :: rest =>
    if v.length ≠ l then .error .invalidResponseLength
    else (checkChunkLengths rest).map (fun cs => (t, l, v) :: cs)

/-- TLV decoding as the claims describe it: `iterate_tvl` composed with
the per-chunk declared-length check of ble.py lines 90-92. -/
def decodeTlvChecked (response : List Nat) : Except PErr (List (Nat × Nat × List Nat)) :=
  match iterate_tvl response with
  | none => .error .indexError
  | some cs => checkChunkLengths cs

/-- ble.py lines 90-95, the body-parsing loop of `signature_parse`, with
explicit fuel: for each TLV chunk check the declared length, resolve the
type code to a name (dict lookup, `KeyError` when unknown), apply the
registered converter and record `setattr(self, name, converted)`. -/
def parseBodyAux : Nat → List Nat → Except PErr (List (String × HapValue))
  | _, [] => .ok []
  | _, [_] => .error .indexError
  | fuel + 1, t :: l :: rest =>
    let v := rest.take l
    if v.length ≠ l then .error .invalidResponseLength
    else
      match HAP_param_type_code_to_name t with
      | none => .error .keyError
      | some name =>
        match HAP_param_name_to_converter name with
        | none => .error .keyError
        | some conv =>
          match conv v with
          | .error e => .error e
          | .ok val => (parseBodyAux fuel (rest.drop l)).map (fun m => (name, val) :: m)
  | 0, _ :: _ :: _ => .error .indexError

/-- The body-parsing loop of `signature_parse` run to completion; the
result is the ordered list of `setattr` events. -/
def parseBody (body : List Nat) : Except PErr (List (String × HapValue)) :=
  parseBodyAux body.length body

/-- ble.py lines 69-95, `HapCharacteristic.signature_parse(response, tid)`:
check control field (byte 0) is 2, byte 1 equals `tid`, status (byte 2)
is Success, the little-endian u16 at bytes 3-4 equals the length of the
remaining bytes, then parse those bytes as TLVs. -/
def signature_parse (response : List Nat) (tid : Nat) :
    Except PErr (List (String × HapValue)) :=
  match response.get? 0 with
  | none => .error .indexError
  | some control_field =>
    if control_field ≠ 2 then .error (.invalidControlField control_field)
    else
      match response.get? 1 with
      | none => .error .indexError
      | some b1 =>
        if b1 ≠ tid then .error (.tidMismatch b1 tid)
        else
          match response.get? 2 with
          | none => .error .indexError
          | some status =>
            if status ≠ 0 then .error (hapBleErrorFromStatus status)
            else
              match (response.drop 3).take 2 with
              | [lo, hi] =>
                let body_length := lo + 256 * hi
                let body := response.drop 5
                if body.length ≠ body_length then
                  .error (.bodyLengthMismatch body_length)
                else parseBody body
              | _ => .error .structError

end hap

namespace hap

/-- ble.py lines 161-195, `HapBlePduRequestHeader` construction state:
`_transaction_id` is `None` unless an explicit id was passed. -/
structure HapBlePduRequestHeader where
  continuation : Bool := false
  response : Bool := false
  op_code : Nat
  _transaction_id : Option Nat := none
  cid_sid : List Nat
deriving DecidableEq

/-- ble.py lines 197-202, `control_field`: the binary string
`"{continuation}00000{response}0"` parsed base 2, so bit 7 is the
continuation flag and bit 1 the response flag. -/
def control_field (h : HapBlePduRequestHeader) : Nat :=
  (if h.continuation then 128 else 0) + (if h.response then 2 else 0)

/-- ble.py lines 204-214, the `transation_id` property (sic): return the
cached id, or on first access store and return a fresh draw.  `rand`
stands for the external entropy source
`random.SystemRandom().getrandbits(8)` (a value below 256). -/
def transation_id (h : HapBlePduRequestHeader) (rand : Nat) :
    Nat × HapBlePduRequestHeader :=
  match h._transaction_id with
  | some t => (t, h)
  | none => (rand, { h with _transaction_id := some rand })

/-- ble.py lines 216-220, the `data` property:
`struct.pack('<BBB', control_field, op_code, transation_id) + cid_sid`.
`pack` raises `struct.error` when a value exceeds one byte, hence the
range checks. -/
def headerData (h : HapBlePduRequestHeader) (rand : Nat) :
    Except PErr (List Nat × HapBlePduRequestHeader) :=
  let (tid, h2) := transation_id h rand
  if control_field h2 < 256 ∧ h2.op_code < 256 ∧ tid < 256 then
    .ok ([control_field h2, h2.op_code, tid] ++ h2.cid_sid, h2)
  else .error .structError

end hap

namespace hap

/-- Specification predicate (spec section 4.1): `TlvChunks data cs` says
`data` is a well-formed TLV stream consisting exactly of the complete
chunks `cs`, each laid out as `[type][len][len bytes]`. -/
inductive TlvChunks : List Nat → List (Nat × Nat × List Nat) → Prop where
  | nil : TlvChunks [] []
  | cons (t l : Nat) (v rest : List Nat) (cs : List (Nat × Nat × List Nat)) :
      v.length = l → TlvChunks rest cs →
      TlvChunks (t :: l :: (v ++ rest)) ((t, l, v) :: cs)

/-- The name-to-decoded-value mapping the claim describes: each chunk
type code resolved to its name through the parameter registry and its
value decoded by the registered per-type converter. -/
def chunksMapping : List (Nat × Nat × List Nat) → Except PErr (List (String × HapValue))
  | [] => .ok []
  | (t, _, v) :: cs =>
    match HAP_param_type_code_to_name t with
    | none => .error .keyError
    | some n =>
      match HAP_param_name_to_converter n with
      | none => .error .keyError
      | some conv =>
        match conv v with
        | .error e => .error e
        | .ok val => (chunksMapping cs).map (fun m => (n, val) :: m)

end hap

/-! ## Helper lemmas -/

/-- The pad width `PAD_L` evaluates to 384 bytes for the 3072-bit modulus. -/
theorem pad_l_eq_384 : pairing.PAD_L = 384 := by decide

/-- The hashed input for `k` is exactly the two arguments zero-padded to
384 bytes and concatenated. -/
theorem k_eq_kSpec (sha : List Nat → Nat) : pairing.k sha = pairing.kSpec sha := by
  unfold pairing.k pairing.H pairing.kSpec pairing.kSpecBytes pairing.hPad
  rw [pad_l_eq_384]
  simp

/-- The code computes `pow` with the base `B - k * (g^x mod N)` while the
spec writes the base `B - k * g^x`; the two are congruent mod `N`, so the
final residues agree for every `k`. -/
theorem computeS_eq_spec (kv B a u x : Nat) :
    pairing.computeS kv B a u x = pairing.specSharedSecret kv B a u x := by
  unfold pairing.computeS pairing.specSharedSecret
  have h5 : (pairing.g : Int) ^ x % (pairing.N : Int) ≡ (pairing.g : Int) ^ x
      [ZMOD (pairing.N : Int)] :=
    Int.emod_emod_of_dvd _ dvd_rfl
  have hbase : ((B : Int) - ((kv * (pairing.g ^ x % pairing.N) : Nat) : Int)) ≡
      ((B : Int) - (kv : Int) * (pairing.g : Int) ^ x) [ZMOD (pairing.N : Int)] := by
    push_cast
    exact (Int.ModEq.refl _).sub (Int.ModEq.mul_left _ h5)
  exact hbase.pow _

/-! ## Claim theorems -/

/-- Claim C1: for every accessory public key `B` with `0 < B < N`,
private exponent `a`, scrambling parameter `u` and derived private key
`x`, the Pair-Setup SRP engine computes the shared secret as
`S = (B - k*g^x mod N)^(a + u*x) mod N` with `k = H(N || g)`, both
arguments zero-padded to the 384-byte length of the 3072-bit modulus
before hashing (the abstract `sha` standing for SHA-512); and `m2`
fails with the invalid-accessory-public-key error whenever the received
`B` satisfies `B mod N = 0` (given the message is otherwise readable). -/
theorem srp_shared_secret_spec :
    (∀ (sha : List Nat → Nat) (B a u x : Nat), 0 < B → B < pairing.N →
      pairing.computeS (pairing.k sha) B a u x =
        pairing.specSharedSecret (pairing.kSpec sha) B a u x)
    ∧ (∀ sha : List Nat → Nat, pairing.k sha = pairing.kSpec sha)
    ∧ (pairing.to_bytes false pairing.N).length = 384
    ∧ (∀ (st : pairing.SRPPairSetup) (d : pairing.Dict) (sb pb sb2 : List Nat) (B : Nat),
        pairing.dictGet d "kTLVType_State" = some sb →
        pairing.from_bytes true sb = some 2 →
        pairing.dictGet d "kTLVType_PublicKey" = some pb →
        pairing.from_bytes true pb = some B →
        pairing.dictGet d "kTLVType_Salt" = some sb2 →
        (pairing.from_bytes true sb2).isSome →
        B % pairing.N = 0 →
        pairing.m2_receive_srp_start_response st d = .error .invalidPublicKey) := by
  refine ⟨fun sha B a u x _ _ => ?_, k_eq_kSpec, by decide, ?_⟩
  · rw [k_eq_kSpec]; exact computeS_eq_spec _ B a u x
  · intro st d sb pb sb2 B h1 h2 h3 h4 h5 h6 hB
    obtain ⟨sv2, hsv2⟩ := Option.isSome_iff_exists.mp h6
    have hrange : B ≥ pairing.N ∨ B ≤ 0 := by
      rcases Nat.eq_zero_or_pos B with h0 | h0
      · exact Or.inr (Nat.le_of_eq h0)
      · exact Or.inl (Nat.le_of_dvd h0 (Nat.dvd_of_mod_eq_zero hB))
    simp only [pairing.m2_receive_srp_start_response, h1, h2, h3, h4, h5, hsv2]
    simp
    omega

/-- Witness for C1 at `sha := fun _ => 0`, `B = 1`, `a = u = x = 0`, and
an `m2` dictionary carrying state bytes `[0x20]` (which `from_bytes`
decodes to 2), public key bytes `[0]` (decoding to `B = 0`, so
`B mod N = 0`) and salt `[1]`. -/
theorem srp_shared_secret_spec_witness :
    ((0 : Nat) < 1 ∧ 1 < pairing.N ∧
      pairing.computeS (pairing.k (fun _ => 0)) 1 0 0 0 =
        pairing.specSharedSecret (pairing.kSpec (fun _ => 0)) 1 0 0 0)
    ∧ pairing.m2_receive_srp_start_response {}
        [("kTLVType_State", [32]), ("kTLVType_PublicKey", [0]), ("kTLVType_Salt", [1])]
      = .error .invalidPublicKey :=
  ⟨⟨by decide, by decide,
    srp_shared_secret_spec.1 (fun _ => 0) 1 0 0 0 (by decide) (by decide)⟩,
   srp_shared_secret_spec.2.2.2 {} _ [32] [0] [1] 0
     (by decide) (by decide) (by decide) (by decide) (by decide) (by decide) (by decide)⟩

/-- Claim C2 (code bug): `m4_receive_srp_verify_response` compares the
raw state bytes against the int 4, which is always false in Python, so
even a well-formed M4 whose received proof value equals the session's
`H(A, M1, K)` (here both are 0 under `sha := fun _ => 0`, with proof
bytes `[0]` decoding to 0) is rejected with the wrong-message error
instead of being accepted. -/
theorem m4_rejects_matching_proof :
    pairing.m4_receive_srp_verify_response (fun _ => 0) {}
        [("kTLVType_State", [4]), ("kTLVType_Proof", [0])]
      = .error (.wrongMessage 4)
    ∧ pairing.from_bytes true [0] =
        some (pairing.H (fun _ => 0) false
          [({} : pairing.SRPPairSetup).A, ({} : pairing.SRPPairSetup).M1,
           ({} : pairing.SRPPairSetup).K]) := by
  constructor <;> decide

/-- Claim C3 (code bug): the body of `m6_receive_exchange_response`
persists the accessory pairing id and long-term public key without any
Ed25519 signature verification: with a decrypt stub returning sub-TLVs
whose signature is the arbitrary byte `[67]`, the method records and
persists everything. -/
theorem m6_persists_without_verification :
    pairing.m6_body (fun _ _ _ => some [1, 1, 65, 3, 1, 66, 10, 1, 67]) {} [9]
      = .ok ({ accessory_pairing_id := [65], accessory_ltpk := [66],
               accessory_signature := [67] },
             [("accessory_pairing_id", [65]), ("accessory_ltpk", [66])]) := by
  decide

/-- Claim C4 (code bug): none of the receive steps proceeds on the
standard encoding of the expected state number.  `m2` decodes the state
bytes with the nibble-reversing `from_bytes` (so `[2]` decodes to 32,
not 2) and rejects; `m4` and `m6` compare the raw bytes against the int
(always unequal in Python) and reject every message. -/
theorem receive_steps_reject_correct_state :
    pairing.m2_receive_srp_start_response {}
        [("kTLVType_State", [2]), ("kTLVType_PublicKey", [1]), ("kTLVType_Salt", [1])]
      = .error (.wrongMessage 2)
    ∧ pairing.m4_receive_srp_verify_response (fun _ => 0) {}
        [("kTLVType_State", [4]), ("kTLVType_Proof", [1])]
      = .error (.wrongMessage 4)
    ∧ pairing.m6_receive_exchange_response (fun _ _ _ => none) {}
        [("kTLVType_State", [6]), ("kTLVType_EncryptedData", [0])]
      = .error (.wrongMessage 6) := by
  refine ⟨by decide, by decide, by decide⟩

/-- Claim C10 (code bug): `from_bytes` is not a left inverse of `to_bytes`
in the default little-endian mode, because it reverses the hex-digit
string (nibble order) instead of the byte order: already at `v = 1` the
round trip yields 16. -/
theorem from_bytes_to_bytes_no_roundtrip :
    pairing.from_bytes true (pairing.to_bytes true 1) = some 16
    ∧ some 16 ≠ some (1 : Nat) := by
  constructor <;> decide

/-- The control field always fits one byte (it is at most 128 + 2). -/
theorem control_field_lt_256 (h : hap.HapBlePduRequestHeader) : hap.control_field h < 256 := by
  unfold hap.control_field
  split <;> split <;> omega

/-- Claim C9: a header created without an explicit transaction id draws
the id from the entropy source on first access of `data`, caches it, and
every later read of `data` returns the same bytes with the same id at
offset 2, never consulting the entropy source again (the second read is
given a different `rand2` yet returns identical bytes). -/
theorem transaction_id_generated_once (h : hap.HapBlePduRequestHeader)
    (rand rand2 : Nat) (h0 : h._transaction_id = none) (hr : rand < 256)
    (hop : h.op_code < 256) :
    ∃ d h2, hap.headerData h rand = .ok (d, h2)
      ∧ hap.headerData h2 rand2 = .ok (d, h2)
      ∧ h2._transaction_id = some rand
      ∧ d.get? 2 = some rand := by
  refine ⟨[hap.control_field { h with _transaction_id := some rand }, h.op_code, rand]
      ++ h.cid_sid, { h with _transaction_id := some rand }, ?_, ?_, rfl, rfl⟩
  · simp only [hap.headerData, hap.transation_id, h0]
    rw [if_pos ⟨control_field_lt_256 _, hop, hr⟩]
  · simp only [hap.headerData, hap.transation_id]
    rw [if_pos ⟨control_field_lt_256 _, hop, hr⟩]

/-- Witness for C9: a concrete header with op code 1 and instance id
`[7]`; the first read draws 42, the second read is offered 9 but still
returns the same bytes. -/
theorem transaction_id_generated_once_witness :
    ∃ d h2, hap.headerData { op_code := 1, cid_sid := [7] } 42 = .ok (d, h2)
      ∧ hap.headerData h2 9 = .ok (d, h2)
      ∧ h2._transaction_id = some 42
      ∧ d.get? 2 = some 42 :=
  transaction_id_generated_once _ 42 9 rfl (by decide) (by decide)

/-- Claim C7: the signature-response parser rejects byte 0 different
from 2 with the invalid-control-field error (whatever the later bytes
hold), then rejects a transaction id mismatch at byte 1, and - with the
earlier checks passed (control 2, matching tid, status 0) - rejects a
little-endian u16 at bytes 3-4 that differs from the number of remaining
bytes, in that order. -/
theorem signature_parse_check_order :
    (∀ (resp : List Nat) (tid c : Nat), resp.get? 0 = some c → c ≠ 2 →
      hap.signature_parse resp tid = .error (.invalidControlField c))
    ∧ (∀ (resp : List Nat) (tid c : Nat), resp.get? 0 = some 2 →
      resp.get? 1 = some c → c ≠ tid →
      hap.signature_parse resp tid = .error (.tidMismatch c tid))
    ∧ (∀ (tid lo hi : Nat) (body : List Nat), lo + 256 * hi ≠ body.length →
      hap.signature_parse (2 :: tid :: 0 :: lo :: hi :: body) tid
        = .error (.bodyLengthMismatch (lo + 256 * hi))) := by
  refine ⟨?_, ?_, ?_⟩
  · intro resp tid c h0 hc
    simp only [hap.signature_parse, h0]
    rw [if_pos hc]
  · intro resp tid c h0 h1 hc
    simp only [hap.signature_parse, h0, h1]
    rw [if_neg (by decide)]
    rw [if_pos hc]
  · intro tid lo hi body h
    simp only [hap.signature_parse, List.get?]
    rw [if_neg (by decide)]
    rw [if_neg (by simp)]
    rw [if_neg (by decide)]
    simp only [List.drop, List.take]
    rw [if_pos (Ne.symm h)]

/-- Witness for C7: three concrete rejections, one per check. -/
theorem signature_parse_check_order_witness :
    hap.signature_parse [3] 0 = .error (.invalidControlField 3)
    ∧ hap.signature_parse [2, 9] 0 = .error (.tidMismatch 9 0)
    ∧ hap.signature_parse [2, 0, 0, 1, 0] 0 = .error (.bodyLengthMismatch 1) :=
  ⟨signature_parse_check_order.1 [3] 0 3 rfl (by decide),
   signature_parse_check_order.2.1 [2, 9] 0 9 rfl rfl (by decide),
   signature_parse_check_order.2.2 0 1 0 [] (by decide)⟩

/-- Counterexample to claim C6 as stated: a response whose status byte
is 7 (outside the 0-6 status table) makes the `HapBleError` constructor
itself fail with a `KeyError` - the parser does not produce a protocol
error carrying a table-defined name and message, because the table
defines none for code 7. -/
theorem status_seven_raises_keyerror :
    hap.signature_parse [2, 0, 7, 0, 0] 0 = .error .keyError
    ∧ hap.status_code_to_name 7 = none := by
  constructor <;> decide

/-- Claim C6 (amended): for status codes 1-6 - those the status table
defines - a matching-header response with nonzero status fails with the
protocol error carrying exactly the table name and message for that
code, and no TLV parsing of the body is attempted (the remaining bytes
`rest` are arbitrary and never inspected). -/
theorem status_error_uses_table (tid status : Nat) (rest : List Nat)
    (h1 : 1 ≤ status) (h6 : status ≤ 6) :
    ∃ n m, hap.status_code_to_name status = some n
      ∧ hap.status_code_to_message status = some m
      ∧ hap.signature_parse (2 :: tid :: status :: rest) tid
          = .error (.hapStatus status n m) := by
  interval_cases status <;>
    exact ⟨_, _, rfl, rfl, by
      simp only [hap.signature_parse, List.get?]
      rw [if_neg (by decide)]
      rw [if_neg (by simp)]
      rw [if_pos (by decide)]
      rfl⟩

/-- Witness for C6 (amended) at status code 3, whose table name is
"Insufficient Authorization" exactly as the claim cites. -/
theorem status_error_uses_table_witness :
    ∃ n m, hap.status_code_to_name 3 = some n
      ∧ hap.status_code_to_message 3 = some m
      ∧ hap.signature_parse [2, 0, 3] 0 = .error (.hapStatus 3 n m) :=
  status_error_uses_table 0 3 [] (by decide) (by decide)

/-- Every chunk of a well-formed TLV stream has its declared length. -/
theorem TlvChunks.lengths {data : List Nat} {cs : List (Nat × Nat × List Nat)}
    (h : hap.TlvChunks data cs) : ∀ c ∈ cs, c.2.2.length = c.2.1 := by
  induction h with
  | nil => intro c hc; cases hc
  | cons t l v rest cs hl _ ih =>
    intro c hc
    rcases List.mem_cons.mp hc with rfl | hc
    · exact hl
    · exact ih c hc

/-- Running `iterate_tvl` on a well-formed prefix followed by a truncated chunk
(fewer than `l` bytes remain after the type and length bytes) yields the
prefix chunks and then the truncated chunk, whose value slice is the
whole (short) remainder. -/
theorem iterate_tvl_aux_truncated {pre : List Nat} {cs : List (Nat × Nat × List Nat)}
    (hpre : hap.TlvChunks pre cs) :
    ∀ (fuel t l : Nat) (v : List Nat), v.length < l →
      (pre ++ t :: l :: v).length ≤ fuel →
      hap.iterate_tvl_aux fuel (pre ++ t :: l :: v) = some (cs ++ [(t, l, v)]) := by
  induction hpre with
  | nil =>
    intro fuel t l v hv hfuel
    simp only [List.nil_append] at hfuel ⊢
    cases fuel with
    | zero => simp at hfuel
    | succ f =>
      simp only [hap.iterate_tvl_aux]
      rw [List.drop_of_length_le (Nat.le_of_lt hv), List.take_of_length_le (Nat.le_of_lt hv)]
      cases f <;> rfl
  | cons t2 l2 v2 rest2 cs2 hl2 _ ih =>
    intro fuel t l v hv hfuel
    cases fuel with
    | zero => simp at hfuel
    | succ f =>
      simp only [List.cons_append, List.append_assoc] at hfuel ⊢
      simp only [hap.iterate_tvl_aux]
      rw [List.take_left' hl2, List.drop_left' hl2]
      rw [ih f t l v hv (by simp [List.length_append] at hfuel ⊢; omega)]
      rfl

/-- Running `checkChunkLengths` on a list of complete chunks followed by one
short chunk fails with the invalid-response-length error. -/
theorem checkChunkLengths_append_fail :
    ∀ (cs : List (Nat × Nat × List Nat)) (t l : Nat) (v : List Nat),
      (∀ c ∈ cs, c.2.2.length = c.2.1) → v.length ≠ l →
      hap.checkChunkLengths (cs ++ [(t, l, v)]) = .error .invalidResponseLength := by
  intro cs
  induction cs with
  | nil =>
    intro t l v _ hv
    simp only [List.nil_append, hap.checkChunkLengths]
    rw [if_pos hv]
  | cons c rest ih =>
    intro t l v hgood hv
    obtain ⟨ct, cl, cv⟩ := c
    simp only [List.cons_append, hap.checkChunkLengths]
    rw [if_neg (by simpa using hgood (ct, cl, cv) (List.mem_cons_self _ _))]
    rw [List.append_eq, ih t l v (fun c hc => hgood c (List.mem_cons_of_mem _ hc)) hv]
    rfl

/-- Chunks accepted by `checkChunkLengths` all have their declared
length. -/
theorem checkChunkLengths_ok :
    ∀ (cs cs2 : List (Nat × Nat × List Nat)),
      hap.checkChunkLengths cs = .ok cs2 → ∀ t l v, (t, l, v) ∈ cs2 → v.length = l := by
  intro cs
  induction cs with
  | nil =>
    intro cs2 hok t l v hmem
    simp only [hap.checkChunkLengths] at hok
    cases hok
    cases hmem
  | cons c rest ih =>
    intro cs2 hok t l v hmem
    obtain ⟨ct, cl, cv⟩ := c
    simp only [hap.checkChunkLengths] at hok
    split at hok
    · cases hok
    · rename_i hlen
      cases hrest : hap.checkChunkLengths rest with
      | error e => rw [hrest] at hok; cases hok
      | ok cs3 =>
        rw [hrest] at hok
        simp only [Except.map] at hok
        cases hok
        rcases List.mem_cons.mp hmem with heq | hmem2
        · cases heq
          exact not_ne_iff.mp hlen
        · exact ih cs3 hrest t l v hmem2

/-- Claim C8: TLV decoding - `iterate_tvl` combined with the per-chunk
declared-length check of `signature_parse` - never yields a truncated
value (every chunk of an accepted stream has its declared length), and
whenever a chunk's declared length exceeds the bytes remaining after its
type and length bytes the result is the typed invalid-response-length
error rather than a truncated value or an out-of-bounds read. -/
theorem tlv_truncated_value_rejected :
    (∀ (resp : List Nat) (cs : List (Nat × Nat × List Nat)),
      hap.decodeTlvChecked resp = .ok cs → ∀ t l v, (t, l, v) ∈ cs → v.length = l)
    ∧ (∀ (pre : List Nat) (cs : List (Nat × Nat × List Nat)) (t l : Nat) (v : List Nat),
      hap.TlvChunks pre cs → v.length < l →
      hap.decodeTlvChecked (pre ++ t :: l :: v) = .error .invalidResponseLength) := by
  constructor
  · intro resp cs hok t l v hmem
    unfold hap.decodeTlvChecked at hok
    cases hiter : hap.iterate_tvl resp with
    | none => rw [hiter] at hok; cases hok
    | some cs0 =>
      rw [hiter] at hok
      exact checkChunkLengths_ok cs0 cs hok t l v hmem
  · intro pre cs t l v hpre hv
    unfold hap.decodeTlvChecked hap.iterate_tvl
    rw [iterate_tvl_aux_truncated hpre _ t l v hv (Nat.le_refl _)]
    exact checkChunkLengths_append_fail cs t l v (TlvChunks.lengths hpre) (Nat.ne_of_lt hv)

/-- Witness for C8: the stream `[1, 2, 9]` declares a two-byte value but
only one byte remains; decoding rejects it. -/
theorem tlv_truncated_value_rejected_witness :
    ([9] : List Nat).length < 2
    ∧ hap.decodeTlvChecked [1, 2, 9] = .error .invalidResponseLength :=
  ⟨by decide, tlv_truncated_value_rejected.2 [] [] 1 2 [9] hap.TlvChunks.nil (by decide)⟩

/-- The body-parsing loop of `signature_parse` succeeds on a strictly
well-formed TLV stream whose chunks all resolve and convert, and
produces exactly the registry mapping of the chunks. -/
theorem parseBodyAux_of_strict :
    ∀ (fuel : Nat) (body : List Nat) (cs : List (Nat × Nat × List Nat))
      (m : List (String × hap.HapValue)),
      pairing.tlvStrictDecodeAux fuel body = some cs →
      hap.chunksMapping cs = .ok m →
      hap.parseBodyAux fuel body = .ok m := by
  intro fuel
  induction fuel with
  | zero =>
    intro body cs m hdec hmap
    match body with
    | [] =>
      simp only [pairing.tlvStrictDecodeAux] at hdec
      cases hdec
      simp only [hap.chunksMapping] at hmap
      cases hmap
      rfl
    | [x] => simp [pairing.tlvStrictDecodeAux] at hdec
    | x :: y :: rest => simp [pairing.tlvStrictDecodeAux] at hdec
  | succ f ih =>
    intro body cs m hdec hmap
    match body with
    | [] =>
      simp only [pairing.tlvStrictDecodeAux] at hdec
      cases hdec
      simp only [hap.chunksMapping] at hmap
      cases hmap
      rfl
    | [x] => simp [pairing.tlvStrictDecodeAux] at hdec
    | t :: l :: rest =>
      simp only [pairing.tlvStrictDecodeAux] at hdec
      split at hdec
      · rename_i hle
        cases hrec : pairing.tlvStrictDecodeAux f (rest.drop l) with
        | none => rw [hrec] at hdec; simp at hdec
        | some cs2 =>
          rw [hrec] at hdec
          simp only [Option.map] at hdec
          cases hdec
          simp only [hap.chunksMapping] at hmap
          cases hname : hap.HAP_param_type_code_to_name t with
          | none => simp [hname] at hmap
          | some n =>
            simp only [hname] at hmap
            cases hconv : hap.HAP_param_name_to_converter n with
            | none => simp [hconv] at hmap
            | some conv =>
              simp only [hconv] at hmap
              cases hval : conv (rest.take l) with
              | error e => simp [hval] at hmap
              | ok val =>
                simp only [hval] at hmap
                cases hmap2 : hap.chunksMapping cs2 with
                | error e => simp [hmap2, Except.map] at hmap
                | ok m2 =>
                  simp only [hmap2, Except.map, Except.ok.injEq] at hmap
                  subst hmap
                  simp only [hap.parseBodyAux]
                  rw [if_neg (by simp [List.length_take]; omega)]
                  simp only [hname, hconv, hval]
                  rw [ih (rest.drop l) cs2 m2 hrec hmap2]
                  rfl
      · simp at hdec

/-- Claim C5: for every transaction id and every body that is a valid
TLV stream (strictly decodable into chunks whose type codes resolve in
the registry and whose values the per-type decoders accept), parsing
`bytes([2, tid, 0, len_lo, len_hi]) + body` with the expected tid
succeeds and yields exactly the registry name-to-decoded-value mapping
of the TLV contents. -/
theorem signature_parse_valid_body (tid : Nat) (body : List Nat)
    (cs : List (Nat × Nat × List Nat)) (m : List (String × hap.HapValue))
    (_htid : tid < 256) (_hbody : body.length < 65536)
    (hdec : pairing.tlvStrictDecode body = some cs)
    (hmap : hap.chunksMapping cs = .ok m) :
    hap.signature_parse
      (2 :: tid :: 0 :: (body.length % 256) :: (body.length / 256) :: body) tid
      = .ok m := by
  have hlen : body.length % 256 + 256 * (body.length / 256) = body.length :=
    Nat.mod_add_div _ _
  simp only [hap.signature_parse, List.get?]
  rw [if_neg (by decide)]
  rw [if_neg (by simp)]
  rw [if_neg (by decide)]
  simp only [List.drop, List.take]
  rw [if_neg (fun hne => hne hlen.symm)]
  unfold pairing.tlvStrictDecode at hdec
  exact parseBodyAux_of_strict _ _ _ _ hdec hmap

/-- Witness for C5: transaction id 0 and the body `[7, 2, 52, 18]` - one
chunk of type 7 (`Service_Instance_ID`) whose two bytes decode through
`to_uint16` to 4660. -/
theorem signature_parse_valid_body_witness :
    (0 : Nat) < 256 ∧ ([7, 2, 52, 18] : List Nat).length < 65536
    ∧ pairing.tlvStrictDecode [7, 2, 52, 18] = some [(7, 2, [52, 18])]
    ∧ hap.chunksMapping [(7, 2, [52, 18])]
        = .ok [("Service_Instance_ID", .int 4660)]
    ∧ hap.signature_parse [2, 0, 0, 4, 0, 7, 2, 52, 18] 0
        = .ok [("Service_Instance_ID", .int 4660)] :=
  ⟨by decide, by decide, by decide, by decide,
   signature_parse_valid_body 0 [7, 2, 52, 18] [(7, 2, [52, 18])]
     [("Service_Instance_ID", .int 4660)] (by decide) (by decide) (by decide) (by decide)⟩
